import Mathlib

/-!
Verification development for the sipstack Asterisk connector.

The Python sources are shallowly embedded: Python strings become `List Char`
(wrapped in `String` at structure boundaries), timestamps become `Nat`
(seconds; SQLite ISO-8601 text comparisons are order-isomorphic to the
numeric comparisons used here), database rows become structures, and the
SQLite tables become lists of rows manipulated by pure functions mirroring
the SQL statements.  Every function is translated from
`src/database_connector.py`, `src/call_processor.py`,
`src/ami/mixmonitor_tracker.py` and `src/ami/connector.py`.
-/

set_option maxRecDepth 4000

namespace Sipstack

/-! ## Python string primitives on `List Char` -/

/-- Python `sub in s` (substring containment) on char lists. -/
def lcontains (s sub : List Char) : Bool :=
  match s with
  | [] => sub.isEmpty
  | _ :: rest => sub.isPrefixOf s || lcontains rest sub

/-- Python `s.startswith(p)`. -/
def lstarts (s p : List Char) : Bool := p.isPrefixOf s

/-- ASCII lowering of one character, modelling Python `str.lower` on ASCII. -/
def lowerChar (c : Char) : Char :=
  if 'A' ≤ c ∧ c ≤ 'Z' then Char.ofNat (c.toNat + 32) else c

/-- Python `s.lower()` (ASCII). -/
def ltoLower (s : List Char) : List Char := s.map lowerChar

/-- Python `s.isdigit()`: nonempty and all decimal digits. -/
def lisdigit (s : List Char) : Bool := ¬s.isEmpty && s.all Char.isDigit

/-- Python `any(c.isalpha() for c in s)` (ASCII letters). -/
def lhasAlpha (s : List Char) : Bool := s.any Char.isAlpha

/-- Auxiliary worker for `lsplit`; the fuel starts at `length + 1` and each
step consumes at least one character, so it never runs out. -/
def lsplitAux (sep : List Char) : Nat → List Char → List Char → List (List Char)
  | 0, _, acc => [acc.reverse]
  | _ + 1, [], acc => [acc.reverse]
  | fuel + 1, c :: rest, acc =>
    if lstarts (c :: rest) sep then
      acc.reverse :: lsplitAux sep fuel ((c :: rest).drop sep.length) []
    else
      lsplitAux sep fuel rest (c :: acc)

/-- Python `s.split(sep)` for a nonempty separator. -/
def lsplit (s sep : List Char) : List (List Char) :=
  lsplitAux sep (s.length + 1) s []

/-- Python `s.rsplit(sep, 1)` for a single-character separator: split at the
last occurrence, returning one or two pieces. -/
def lrsplitOne (s : List Char) (sep : Char) : List (List Char) :=
  match s.reverse.findIdx? (· = sep) with
  | none => [s]
  | some j =>
    let i := s.length - 1 - j
    [s.take i, s.drop (i + 1)]

/-- Python `s.strip()` (whitespace at both ends). -/
def lstrip (s : List Char) : List Char :=
  (s.dropWhile Char.isWhitespace).reverse.dropWhile Char.isWhitespace |>.reverse

/-- Python `s.rstrip(chars)`. -/
def lrstripChars (s : List Char) (cs : List Char) : List Char :=
  (s.reverse.dropWhile (fun c => cs.contains c)).reverse

/-- Index of the first occurrence of `sub` in `s` (Python `s.find(sub)`),
`none` when absent. -/
def lfindSub (s sub : List Char) : Option Nat :=
  go s 0 (s.length + 1)
where
  go : List Char → Nat → Nat → Option Nat
    | _, _, 0 => none
    | t, i, fuel + 1 =>
      if sub.isPrefixOf t then some i
      else match t with
        | [] => none
        | _ :: rest => go rest (i + 1) fuel

/-- Python `s.find(sub, start)`. -/
def lfindFrom (s sub : List Char) (start : Nat) : Option Nat :=
  (lfindSub (s.drop start) sub).map (· + start)

/-- Lexicographic `≤` on char lists by code point, as Python string
comparison used by `list.sort(key=...)`. -/
def lcharsLe : List Char → List Char → Bool
  | [], _ => true
  | _ :: _, [] => false
  | a :: s, b :: t => if a = b then lcharsLe s t else decide (a < b)

/-- Stable ordered insertion with a boolean `≤`, as used by Python `sort`. -/
def ordIns (le : α → α → Bool) (a : α) : List α → List α
  | [] => [a]
  | b :: l => if le a b then a :: b :: l else b :: ordIns le a l

/-- Stable insertion sort with a boolean `≤`. -/
def insSort (le : α → α → Bool) : List α → List α
  | [] => []
  | a :: l => ordIns le a (insSort le l)

/-! ## Number normalization (`DatabaseConnector._normalize_number`) -/

/-- The sequential dial-prefix stripping at the top of `_normalize_number`:
`for prefix in ['*67', '*82', '9']: if cleaned.startswith(prefix): ...`. -/
def stripDialPfx (l : List Char) : List Char :=
  let l1 := if lstarts l ['*', '6', '7'] then l.drop 3 else l
  let l2 := if lstarts l1 ['*', '8', '2'] then l1.drop 3 else l1
  if lstarts l2 ['9'] then l2.drop 1 else l2

/-- `DatabaseConnector._normalize_number` on char lists: strip the dial
prefixes, keep digits, prepend `1` to a 10-digit result, and return the
result only when it still has at least 10 digits. -/
def normalizeNumberL (l : List Char) : Option (List Char) :=
  if l.isEmpty then none
  else
    let cleaned := (stripDialPfx l).filter Char.isDigit
    let cleaned := if cleaned.length = 10 then '1' :: cleaned else cleaned
    if cleaned.length ≥ 10 then some cleaned else none

/-- String wrapper of `_normalize_number`. -/
def normalizeNumber (s : String) : Option String :=
  (normalizeNumberL s.data).map fun l => ⟨l⟩

/-! ## Data model: CDR rows, CEL rows, configuration -/

/-- One CDR row as read from the switch database (`ORDER BY calldate`).
`calldate` is seconds; a missing/NULL disposition is the empty string or
the literal string `"NULL"`, exactly as tested by the Python code. -/
structure Cdr where
  calldate : Nat
  src : String
  dst : String
  context : String
  dcontext : String
  channel : String
  dstchannel : String
  disposition : String
  duration : Nat
  billsec : Nat
  uniqueid : String
  linkedid : String
  accountcode : String
  userfield : String
  peeraccount : String
  lastdata : String
  deriving Repr, DecidableEq

/-- One CEL row.  The 19 named fields are the `cel_custom.conf` CSV columns;
`eventextra` is the extra key probed by the tenant scan (absent from CSV
rows, hence empty there). -/
structure Cel where
  eventtype : String
  eventtime : String
  cid_name : String
  cid_num : String
  cid_ani : String
  cid_rdnis : String
  cid_dnid : String
  exten : String
  context : String
  channame : String
  appname : String
  appdata : String
  amaflags : String
  accountcode : String
  uniqueid : String
  linkedid : String
  peer : String
  userdeftype : String
  extra : String
  eventextra : String := ""
  deriving Repr, DecidableEq

/-- The configuration values `format_call_data` and the tenant scan read. -/
structure Config where
  connector_version : String := "2.2.0"
  customer_id : Nat := 0
  tenant : String := ""
  hostname : String := "host"
  known_trunks : List String := []
  deriving Repr

/-! ## Completion detection (`DatabaseConnector.is_call_complete`) -/

/-- `any(cel.get('eventtype') == 'LINKEDID_END' for cel in cels)`. -/
def hasLinkedidEnd (cels : List Cel) : Bool :=
  cels.any fun cel => cel.eventtype = "LINKEDID_END"

/-- The HANGUP CEL count of `is_call_complete`. -/
def hangupCount (cels : List Cel) : Nat :=
  (cels.filter fun cel => cel.eventtype = "HANGUP").length

/-- The distinct CHAN_START channel count of `is_call_complete`. -/
def chanStartChannelCount (cels : List Cel) : Nat :=
  ((cels.filter fun cel => cel.eventtype = "CHAN_START").map (·.channame)).dedup.length

/-- `all(cdr.get('disposition') and cdr.get('disposition') != 'NULL' ...)`. -/
def allDisposed (cdrs : List Cdr) : Bool :=
  cdrs.all fun cdr => cdr.disposition ≠ "" ∧ cdr.disposition ≠ "NULL"

/-- `max(cdr.get('calldate', datetime.min) for cdr in cdrs)` (only consulted
on a nonempty CDR list). -/
def lastCdrUpdate (cdrs : List Cdr) : Nat :=
  (cdrs.map (·.calldate)).foldr max 0

/-- `DatabaseConnector.is_call_complete`: LINKEDID_END, or hangups covering
the distinct CHAN_START channels, or all CDRs disposed with no CDR update
in the last 60 seconds.  `now` is the current wall clock in seconds. -/
def isCallComplete (now : Nat) (cdrs : List Cdr) (cels : List Cel) : Bool :=
  let celPart : Option Bool :=
    if ¬cels.isEmpty then
      if hasLinkedidEnd cels then some true
      else if hangupCount cels ≥ chanStartChannelCount cels ∧
          chanStartChannelCount cels > 0 then some true
      else none
    else none
  match celPart with
  | some b => b
  | none =>
    if cdrs.isEmpty then false
    else if ¬allDisposed cdrs then false
    else decide (now - lastCdrUpdate cdrs > 60)

/-! ## Direction detection (`DatabaseConnector.determine_direction`) -/

/-- The trunk substring patterns of `determine_direction`. -/
def trunkPats : List String :=
  ["trunk", "sbc-", "sbc_", "pstn", "voip", "gateway", "provider", "DAHDI/", "IAX2/"]

/-- `any(pattern.lower() in chan.lower() for pattern in trunk_patterns)`. -/
def isTrunkChan (chan : String) : Bool :=
  trunkPats.any fun p => lcontains (ltoLower chan.data) (ltoLower p.data)

/-- The nested `is_extension_channel` helper of `determine_direction`. -/
def isExtensionChannel (chan : String) : Bool :=
  if chan = "" then false
  else
    let chanLower := ltoLower chan.data
    if lcontains chanLower "sip/".data ∨ lcontains chanLower "pjsip/".data then
      if trunkPats.any (fun p => lcontains chanLower (ltoLower p.data)) then false
      else
        match (lsplit chan.data "/".data).get? 1 with
        | none => false
        | some info =>
          let extPart := if info.contains '-' then (lsplit info "-".data).headD [] else info
          lisdigit extPart ∧ extPart.length ≤ 6
    else false

/-- `src.isdigit() and len(src) >= 10` — a bare 10+-digit number. -/
def isExternalNum (s : String) : Bool := lisdigit s.data ∧ s.length ≥ 10

/-- `DatabaseConnector.determine_direction`: channel trunk/extension
patterns first, then bare number length, then context substrings;
`'x'` is the default. -/
def determineDirection (cdrs : List Cdr) (_cels : List Cel) : String :=
  match cdrs with
  | [] => "x"
  | primary :: _ =>
    let srcTrunk := isTrunkChan primary.channel
    let dstTrunk := isTrunkChan primary.dstchannel
    let srcExtChan := isExtensionChannel primary.channel
    let dstExtChan := isExtensionChannel primary.dstchannel
    if srcTrunk ∧ dstExtChan then "i"
    else if srcExtChan ∧ dstTrunk then "o"
    else if srcExtChan ∧ dstExtChan then "x"
    else
      let srcExternal := isExternalNum primary.src
      let dstExternal := isExternalNum primary.dst
      if srcExternal ∧ ¬dstExternal then "i"
      else if ¬srcExternal ∧ dstExternal then "o"
      else
        let ctx := if primary.dcontext ≠ "" then primary.dcontext else primary.context
        let ctxLower := ltoLower ctx.data
        if ["from-trunk", "from-pstn", "from-external", "from-did"].any
            (fun p => lcontains ctxLower p.data) then "i"
        else if ["from-internal", "from-inside"].any (fun p => lcontains ctxLower p.data)
            ∧ dstExternal then "o"
        else "x"

/-! ## Number/extension extraction
(`DatabaseConnector.extract_numbers_and_extensions`) -/

/-- Result record of `extract_numbers_and_extensions`. -/
structure Numbers where
  src_number : Option String := none
  src_extension : Option String := none
  dst_number : Option String := none
  dst_extension : Option String := none
  deriving Repr, DecidableEq

/-- The `SIP/ext-...` extension sniffing applied to `channel`/`dstchannel`
at the top of `extract_numbers_and_extensions`. -/
def chanExt (chan : String) : Option String :=
  if lcontains chan.data "SIP/".data ∨ lcontains chan.data "PJSIP/".data then
    match (lsplit chan.data "/".data).get? 1 with
    | some info =>
      let extPart := if info.contains '-' then (lsplit info "-".data).headD [] else info
      if lisdigit extPart ∧ extPart.length ≤ 6 then some (⟨extPart⟩ : String) else none
    | none => none
  else none

/-- `DatabaseConnector._extract_did_from_context`: a 10–11 digit dash part,
else a 10+-digit comma part; the first hit is normalized and returned even
when normalization yields nothing. -/
def extractDidFromContext (context : String) : Option String :=
  if context = "" then none
  else
    match (lsplit context.data "-".data).find?
        (fun p => lisdigit p ∧ 10 ≤ p.length ∧ p.length ≤ 11) with
    | some p => (normalizeNumberL p).map fun l => ⟨l⟩
    | none =>
      if context.data.contains ',' then
        match (lsplit context.data ",".data).find?
            (fun p0 => lisdigit (lstrip p0) ∧ (lstrip p0).length ≥ 10) with
        | some p0 => (normalizeNumberL (lstrip p0)).map fun l => ⟨l⟩
        | none => none
      else none

/-- First CHAN_START CEL whose `exten` is a 10+-digit DID, normalized
(the inbound DID recovery loops in `extract_numbers_and_extensions`). -/
def chanStartDid (cels : List Cel) : Option String :=
  match cels.find? (fun cel =>
      cel.eventtype = "CHAN_START" ∧ cel.exten ≠ "" ∧
      lisdigit cel.exten.data ∧ cel.exten.length ≥ 10) with
  | some cel => normalizeNumber cel.exten
  | none => none

/-- `DatabaseConnector.extract_numbers_and_extensions`. -/
def extractNumbers (cdrs : List Cdr) (cels : List Cel) (direction : String) : Numbers :=
  match cdrs with
  | [] => {}
  | primary :: _ =>
    let working := (cdrs.find? (fun c => c.disposition = "ANSWERED")).getD primary
    let srcExt0 := chanExt working.channel
    let dstExt0 := chanExt working.dstchannel
    let src := working.src
    let dst := working.dst
    if direction = "i" then
      let srcCleaned := src.data.filter Char.isDigit
      let (srcNum, srcExt) :=
        if ¬srcCleaned.isEmpty then
          if srcCleaned.length ≥ 10 then (normalizeNumber src, srcExt0)
          else if srcExt0.isNone then (none, some (⟨srcCleaned⟩ : String))
          else (none, srcExt0)
        else if src = "" ∧ ¬cels.isEmpty then
          match cels.find? (fun cel => cel.cid_num ≠ "" ∧ lisdigit cel.cid_num.data ∧
              cel.cid_num.length ≥ 10) with
          | some cel => (normalizeNumber cel.cid_num, srcExt0)
          | none => (none, srcExt0)
        else (none, srcExt0)
      let (dstNum, dstExt) :=
        match extractDidFromContext working.dcontext with
        | some d => (some d, dstExt0)
        | none =>
          if dst = "s" ∨ dst = "i" ∨ dst = "t" ∨ dst = "h" then
            (if ¬cels.isEmpty then chanStartDid cels else none, dstExt0)
          else if dst ≠ "" then
            let dstCleaned := dst.data.filter Char.isDigit
            if ¬dstCleaned.isEmpty ∧ dstCleaned.length ≥ 10 then
              (normalizeNumber dst, dstExt0)
            else if ¬dstCleaned.isEmpty ∧ dstCleaned.length < 10 then
              let dstExt1 := if dstExt0.isNone then some (⟨dstCleaned⟩ : String) else dstExt0
              (if ¬cels.isEmpty then chanStartDid cels else none, dstExt1)
            else (none, dstExt0)
          else (none, dstExt0)
      { src_number := srcNum, src_extension := srcExt,
        dst_number := dstNum, dst_extension := dstExt }
    else if direction = "o" then
      let srcCleaned := src.data.filter Char.isDigit
      let (srcNum, srcExt) :=
        if ¬srcCleaned.isEmpty ∧ srcCleaned.length ≥ 10 then (normalizeNumber src, srcExt0)
        else if ¬srcCleaned.isEmpty ∧ srcCleaned.length < 10 ∧ srcExt0.isNone then
          (none, some (⟨srcCleaned⟩ : String))
        else (none, srcExt0)
      let dstCleaned := dst.data.filter Char.isDigit
      let dstNum :=
        if ¬dstCleaned.isEmpty ∧ dstCleaned.length ≥ 10 then normalizeNumber dst else none
      { src_number := srcNum, src_extension := srcExt,
        dst_number := dstNum, dst_extension := dstExt0 }
    else if direction = "x" then
      let srcExt :=
        if srcExt0.isNone ∧ src ≠ "" ∧ lisdigit src.data ∧ src.length ≤ 4 then some src
        else srcExt0
      let dstExt :=
        if dstExt0.isNone ∧ dst ≠ "" ∧
            (lstarts dst.data ['*'] ∨ (lisdigit dst.data ∧ dst.length ≤ 4)) then some dst
        else dstExt0
      { src_extension := srcExt, dst_extension := dstExt }
    else { src_extension := srcExt0, dst_extension := dstExt0 }

/-! ## Tenant extraction
(`_is_valid_tenant`, `_extract_tenant_from_channel`,
`_extract_tenant_from_context` and the scan in `format_call_data`) -/

/-- The skip set of `_is_valid_tenant`. -/
def skipPats : List String :=
  ["sip", "pjsip", "iax", "dahdi", "local", "from", "to", "did", "direct",
   "trunk", "peer", "sbc", "ca1", "ca2", "us1", "us2", "closed", "open",
   "internal", "external"]

/-- `DatabaseConnector._is_valid_tenant` (`kt` is the lowercased
`known_trunks` list from configuration). -/
def isValidTenant (kt : List String) (candidate : List Char) : Bool :=
  if candidate.isEmpty ∨ candidate.length < 2 then false
  else
    let lower := ltoLower candidate
    if lisdigit lower then false
    else if lower.all (fun c => "0123456789abcdef".data.contains c) then false
    else if kt.contains (⟨lower⟩ : String) then false
    else if skipPats.contains (⟨lower⟩ : String) then false
    else if candidate.length ≤ 20 ∧ lhasAlpha candidate then true
    else false

/-- `DatabaseConnector._extract_tenant_from_channel`. -/
def extractTenantFromChannel (kt : List String) (channel : String) : Option String :=
  if channel = "" then none
  else if lcontains channel.data "SIP/".data ∨ lcontains channel.data "PJSIP/".data then
    match (lsplit channel.data "/".data).get? 1 with
    | none => none
    | some info =>
      let comps := lsplit info "-".data
      let pos1 : Option (List Char) :=
        match comps.get? 1 with
        | some cand => if isValidTenant kt cand then some (ltoLower cand) else none
        | none => none
      match pos1 with
      | some t => some ⟨t⟩
      | none =>
        match comps.reverse.find? (isValidTenant kt) with
        | some c => some (⟨ltoLower c⟩ : String)
        | none => none
  else none

/-- `DatabaseConnector._extract_tenant_from_context`.  The loop tries each
delimiter present in the context; the final whole-context check is reached
whenever no delimiter produced a candidate. -/
def extractTenantFromContext (kt : List String) (context : String) : Option String :=
  if context = "" then none
  else
    let tryDelim : Char → Option (List Char) := fun d =>
      if context.data.contains d then
        let parts := lsplit context.data [d]
        match parts.reverse.find? (isValidTenant kt) with
        | some p => some (ltoLower p)
        | none =>
          if parts.length ≥ 5 ∧ d = '-' then
            match parts.getLast? with
            | some last =>
              if isValidTenant kt last then some (ltoLower last)
              else
                match parts.get? 3 with
                | some p3 => if isValidTenant kt p3 then some (ltoLower p3) else none
                | none => none
            | none => none
          else none
      else none
    match ['-', '_', ',', '/', '@'].findSome? tryDelim with
    | some t => some (⟨t⟩ : String)
    | none =>
      if isValidTenant kt context.data then some (⟨ltoLower context.data⟩ : String) else none

/-- One pass of the field scan in `format_call_data`: channel-style fields
go through the channel extractor first, then the context extractor. -/
def scanTenantFields (kt : List String) (fields : List String) : Option String :=
  fields.findSome? fun field =>
    if field = "" then none
    else
      let t1 :=
        if lcontains field.data "SIP/".data ∨ lcontains field.data "PJSIP/".data then
          extractTenantFromChannel kt field
        else none
      match t1 with
      | some t => some t
      | none => extractTenantFromContext kt field

/-! ## Name extraction (`DatabaseConnector.extract_names_from_cel`) -/

/-- Result record of `extract_names_from_cel`. -/
structure Names where
  src_name : Option String := none
  dst_name : Option String := none
  src_extension_name : Option String := none
  dst_extension_name : Option String := none
  deriving Repr, DecidableEq

/-- The lazy `.*?-(.+)$` suffix of the caller-id regex: group at the first
dash followed by at least one character. -/
def firstDashSplit : List Char → Option (List Char)
  | [] => none
  | c :: t => if c = '-' ∧ ¬t.isEmpty then some t else firstDashSplit t

/-- `re.match(r'^\d\x7b3\x7d-\d\x7b2\x7d-[A-Za-z]+-.*?-(.+)$', s)`, returning
group 1. -/
def nameRegexGroup (l : List Char) : Option (List Char) :=
  match l with
  | d1 :: d2 :: d3 :: h1 :: d4 :: d5 :: h2 :: rest =>
    if h1 = '-' ∧ h2 = '-' ∧ [d1, d2, d3, d4, d5].all Char.isDigit then
      let run := rest.takeWhile Char.isAlpha
      if run.isEmpty then none
      else
        match rest.drop run.length with
        | '-' :: tail => firstDashSplit tail
        | _ => none
    else none
  | _ => none

/-- The tenant-prefix cleanup applied to a CEL `cid_name`. -/
def cleanedNameOf (cidName : List Char) : List Char :=
  if cidName.length > 30 ∧ cidName.contains '-' then
    match lrsplitOne cidName '-' with
    | [pre, suf] =>
      if ¬suf.isEmpty ∧ ¬lstarts suf (pre.take 3) then
        let sufStripped := lstrip suf
        if lstarts sufStripped ['+'] ∧ lisdigit (sufStripped.drop 1) then []
        else sufStripped
      else cidName
    | _ => cidName
  else if cidName.contains '-' then
    match nameRegexGroup cidName with
    | some g =>
      let cleaned := lstrip g
      if lstarts cleaned ['+'] ∧ lisdigit ((cleaned.drop 1).filter (· ≠ '-')) then []
      else cleaned
    | none => cidName
  else cidName

/-- One CEL step of the name-extraction loop. -/
def updNames (numbers : Numbers) (acc : Names) (cel : Cel) : Names :=
  let cidName : String := ⟨lstrip cel.cid_name.data⟩
  let cidNum : String := ⟨lstrip cel.cid_num.data⟩
  let channame : String := ⟨lstrip cel.channame.data⟩
  if cidName ≠ "" then
    let cleaned := cleanedNameOf cidName.data
    let srcMatch : Bool :=
      decide (cidNum ≠ "") &&
        ((match numbers.src_number with
          | some s => decide (cidNum = s)
          | none => false) ||
          decide (normalizeNumber cidNum = numbers.src_number))
    let acc1 :=
      if srcMatch ∧ acc.src_name.isNone ∧ ¬cleaned.isEmpty then
        { acc with src_name := some (⟨cleaned⟩ : String) }
      else acc
    if lcontains channame.data "SIP/".data then
      let extMatch : Option (List Char) :=
        if channame.data.contains '-' then
          match (lsplit channame.data "SIP/".data).get? 1 with
          | some piece => some ((lsplit piece "-".data).headD [])
          | none => none
        else none
      match extMatch with
      | some em =>
        if lisdigit em then
          if (match numbers.src_extension with
              | some s => decide ((⟨em⟩ : String) = s) | none => false) then
            if acc1.src_extension_name.isNone then
              { acc1 with src_extension_name := some cidName }
            else acc1
          else if (match numbers.dst_extension with
              | some s => decide ((⟨em⟩ : String) = s) | none => false) then
            if acc1.dst_extension_name.isNone then
              { acc1 with dst_extension_name := some cidName }
            else acc1
          else acc1
        else acc1
      | none => acc1
    else acc1
  else acc

/-- `DatabaseConnector.extract_names_from_cel`. -/
def extractNames (cels : List Cel) (numbers : Numbers) : Names :=
  cels.foldl (updNames numbers) {}

/-! ## Call threads and the consolidated document
(`build_call_threads`, `format_call_data`) -/

/-- One projected event of `call_threads`. -/
structure Thread where
  time : String
  event : String
  src : Option String := none
  dst : Option String := none
  duration : Option Nat := none
  billsec : Option Nat := none
  disposition : Option String := none
  channel : Option String := none
  dstchannel : Option String := none
  exten : Option String := none
  context : Option String := none
  uniqueid : String := ""
  peer : Option String := none
  transferee : Option String := none
  deriving Repr, DecidableEq

/-- Fixed-width decimal rendering of a timestamp, modelling the ISO-8601
text of `datetime.isoformat()`: for timestamps below `10^10` the textual
order agrees with the numeric order, as it does for real ISO timestamps. -/
def natIso (n : Nat) : String :=
  ⟨List.replicate (10 - (toString n).length) '0' ++ (toString n).data⟩

/-- CDR projection of `build_call_threads`. -/
def mkCdrThread (cdr : Cdr) : Thread :=
  { time := natIso cdr.calldate, event := "CDR", src := some cdr.src, dst := some cdr.dst,
    duration := some cdr.duration, billsec := some cdr.billsec,
    disposition := some cdr.disposition, channel := some cdr.channel,
    dstchannel := some cdr.dstchannel, uniqueid := cdr.uniqueid }

/-- The CEL allowlist of `build_call_threads`. -/
def significantEvents : List String :=
  ["CHAN_START", "ANSWER", "BRIDGE_ENTER", "BRIDGE_EXIT",
   "BLINDTRANSFER", "ATTENDEDTRANSFER", "HANGUP", "LINKEDID_END"]

/-- CEL projection of `build_call_threads`. -/
def mkCelThread (cel : Cel) : Thread :=
  { time := cel.eventtime, event := cel.eventtype, channel := some cel.channame,
    exten := some cel.exten, context := some cel.context, uniqueid := cel.uniqueid,
    peer := if lcontains cel.eventtype.data "BRIDGE".data then some cel.peer else none,
    transferee :=
      if lcontains cel.eventtype.data "TRANSFER".data then some cel.extra else none }

/-- `DatabaseConnector.build_call_threads`: CDR projections, allowlisted CEL
projections, stably sorted by the `time` text. -/
def buildCallThreads (cdrs : List Cdr) (cels : List Cel) : List Thread :=
  insSort (fun a b => lcharsLe a.time.data b.time.data)
    (cdrs.map mkCdrThread ++
      (cels.filter (fun cel => significantEvents.contains cel.eventtype)).map mkCelThread)

/-- The consolidated call document (the fields of the `CallData` dataclass
that the claims are about; the raw-data debug attachments are omitted). -/
structure CallData where
  connector_version : String
  customer_id : Nat
  tenant : String
  hostname : String
  linkedid : String
  is_complete : Bool
  call_time : String
  duration_seconds : Nat
  call_threads : List Thread
  call_threads_count : Nat
  direction : String
  disposition : String
  src_number : Option String := none
  src_extension : Option String := none
  src_name : Option String := none
  src_extension_name : Option String := none
  dst_number : Option String := none
  dst_extension : Option String := none
  dst_name : Option String := none
  dst_extension_name : Option String := none
  deriving Repr, DecidableEq

/-- `DatabaseConnector.format_call_data`. -/
def formatCallData (now : Nat) (linkedid : String) (cdrs : List Cdr) (cels : List Cel)
    (isComplete : Bool) (cfg : Config) : CallData :=
  let direction := determineDirection cdrs cels
  let numbers := extractNumbers cdrs cels direction
  let names := extractNames cels numbers
  let threads := buildCallThreads cdrs cels
  let duration := (cdrs.map (·.duration)).foldr max 0
  let dispositions := cdrs.map (·.disposition)
  let disposition :=
    if dispositions.contains "ANSWERED" then "ANSWERED"
    else dispositions.headD "NO ANSWER"
  let callTime := match cdrs with | [] => now | c :: _ => c.calldate
  let tenant :=
    match cdrs.findSome? (fun cdr => scanTenantFields cfg.known_trunks
        [cdr.dcontext, cdr.context, cdr.accountcode, cdr.userfield,
         cdr.peeraccount, cdr.lastdata, cdr.channel, cdr.dstchannel]) with
    | some t => t
    | none =>
      match (if ¬cels.isEmpty then
          cels.findSome? (fun cel => scanTenantFields cfg.known_trunks
            [cel.context, cel.channame, cel.appdata, cel.peer, cel.eventextra])
        else none) with
      | some t => t
      | none => cfg.tenant
  { connector_version := cfg.connector_version, customer_id := cfg.customer_id,
    tenant := tenant, hostname := cfg.hostname, linkedid := linkedid,
    is_complete := isComplete, call_time := natIso callTime, duration_seconds := duration,
    call_threads := threads, call_threads_count := threads.length,
    direction := direction, disposition := disposition,
    src_number := numbers.src_number, src_extension := numbers.src_extension,
    src_name := names.src_name, src_extension_name := names.src_extension_name,
    dst_number := numbers.dst_number, dst_extension := numbers.dst_extension,
    dst_name := names.dst_name, dst_extension_name := names.dst_extension_name }

/-! ## Per-call shipping state (`processed_calls` in the tracker SQLite:
`should_ship_call`, `track_processed_call`, `_init_tracker_db` cleanup) -/

/-- One `processed_calls` row.  Timestamps are seconds (the ISO-8601 text
stored by SQLite compares identically). -/
structure CallRow where
  linkedid : String
  first_seen : Nat
  last_updated : Nat
  is_complete : Bool
  shipped_at : Option Nat := none
  ship_count : Nat := 0
  last_cdr_count : Nat := 0
  last_cel_count : Nat := 0
  error_count : Nat := 0
  deriving Repr, DecidableEq

/-- `DatabaseConnector.should_ship_call`; `row?` is the `SELECT` result for
the linkedid, `mode` is the configured shipping mode, `longInterval` the
`LONG_CALL_UPDATE_INTERVAL` in seconds. -/
def shouldShipCall (mode : String) (longInterval : Nat) (now : Nat)
    (row? : Option CallRow) (isComplete : Bool) (cdrCount celCount : Nat) :
    Bool × String :=
  if mode = "complete" then
    match row? with
    | none => if isComplete then (true, "complete") else (false, "none")
    | some row =>
      if isComplete ∧ ¬row.is_complete then (true, "complete")
      else if isComplete ∧ row.is_complete ∧ row.ship_count > 0 then (false, "none")
      else if ¬isComplete ∧ longInterval > 0 ∧ now - row.last_updated > longInterval then
        (true, "update")
      else (false, "none")
  else
    match row? with
    | none => (true, "initial")
    | some row =>
      if isComplete ∧ ¬row.is_complete then (true, "complete")
      else if cdrCount > row.last_cdr_count ∨ celCount > row.last_cel_count then
        (true, "update")
      else if isComplete ∧ row.is_complete ∧ row.ship_count > 0 then (false, "none")
      else if ¬isComplete ∧ now - row.last_updated > 60 then (true, "update")
      else (false, "none")

/-- `DatabaseConnector.track_processed_call`: the SQLite upsert.  On insert,
`first_seen = now` and `shipped_at`/`ship_count` reflect `shipped`; on
conflict, `shipped_at` is overwritten only when `shipped` and `ship_count`
is incremented by `1 if shipped else 0`. -/
def trackProcessedCall (now : Nat) (row? : Option CallRow) (linkedid : String)
    (isComplete : Bool) (cdrCount celCount : Nat) (shipped : Bool) : CallRow :=
  match row? with
  | none =>
    { linkedid := linkedid, first_seen := now, last_updated := now,
      is_complete := isComplete, last_cdr_count := cdrCount, last_cel_count := celCount,
      shipped_at := if shipped then some now else none,
      ship_count := if shipped then 1 else 0 }
  | some row =>
    { row with
      last_updated := now, is_complete := isComplete,
      last_cdr_count := cdrCount, last_cel_count := celCount,
      shipped_at := if shipped then some now else row.shipped_at,
      ship_count := row.ship_count + (if shipped then 1 else 0) }

/-- The cleanup statement run by `_init_tracker_db` on every startup:
`DELETE FROM processed_calls WHERE last_updated < datetime(now, '-24 hours')`. -/
def initTrackerCleanup (now : Nat) (rows : List CallRow) : List CallRow :=
  rows.filter fun r => ¬(r.last_updated < now - 24 * 3600)

/-! ## Recording tracking store (`MixMonitorTracker`, `recording_metadata`) -/

/-- One `recording_metadata` row (the columns the claims touch; SQLite
integer booleans become `Bool`, timestamps become `Nat`). -/
structure RecRow where
  filename : String
  channel : String := ""
  uniqueid : String := ""
  linkedid : String := ""
  started_at : Nat := 0
  stopped_at : Option Nat := none
  file_exists : Bool := false
  uploaded : Bool := false
  file_path : Option String := none
  file_size : Nat := 0
  last_size_check : Option Nat := none
  size_stable_count : Nat := 0
  recording_complete : Bool := false
  upload_status : Nat := 0
  upload_attempts : Nat := 0
  last_upload_attempt : Option Nat := none
  last_upload_error : Option String := none
  earliest_upload_time : Option Nat := none
  created_at : Nat := 0
  deriving Repr, DecidableEq

/-- The recording store: the list of rows (filename is the primary key). -/
abbrev RecStore := List RecRow

/-- `UPDATE ... WHERE filename = ?` applied through a row transformer. -/
def updRow (fn : String) (f : RecRow → RecRow) (s : RecStore) : RecStore :=
  s.map fun r => if r.filename = fn then f r else r

/-- `INSERT OR REPLACE INTO recording_metadata` as performed by
`_store_recording_metadata` from `handle_mixmonitor_start`: the whole row is
replaced, and the columns absent from the event metadata (`uploaded`,
`recording_complete`, `upload_status`, `upload_attempts`,
`size_stable_count`, …) revert to their SQL defaults. -/
def insertOrReplaceRec (r : RecRow) (s : RecStore) : RecStore :=
  r :: s.filter fun q => q.filename ≠ r.filename

/-- `MixMonitorTracker.mark_uploaded`. -/
def markUploaded (now : Nat) (fn : String) : RecStore → RecStore :=
  updRow fn fun r =>
    { r with uploaded := true, upload_status := 202, last_upload_attempt := some now }

/-- `MixMonitorTracker.mark_upload_failed`. -/
def markUploadFailed (now : Nat) (fn : String) (code : Nat) (msg : String) :
    RecStore → RecStore :=
  updRow fn fun r =>
    { r with
      upload_status := code, upload_attempts := r.upload_attempts + 1,
      last_upload_attempt := some now, last_upload_error := some msg }

/-- `MixMonitorTracker.handle_mixmonitor_stop` for a tracked filename. -/
def markStopped (now : Nat) (fn : String) : RecStore → RecStore :=
  updRow fn fun r => { r with stopped_at := some now, earliest_upload_time := some (now + 5) }

/-- `MixMonitorTracker._check_single_recording` on one row, given the
sampled existence and size of the file on disk at time `now`. -/
def checkSingleRecording (fileThere : Bool) (size now : Nat) (r : RecRow) : RecRow :=
  if ¬fileThere then
    { r with file_exists := false, stopped_at := some now }
  else if size = r.file_size ∧ r.file_size > 0 then
    if size < 1000 then
      { r with file_size := size, last_size_check := some now, size_stable_count := 0 }
    else if r.size_stable_count + 1 ≥ 2 then
      { r with recording_complete := true, file_size := size, stopped_at := some now }
    else
      { r with
        file_size := size, last_size_check := some now,
        size_stable_count := r.size_stable_count + 1 }
  else
    { r with file_size := size, last_size_check := some now, size_stable_count := 0 }

/-- Sort key for `ORDER BY upload_attempts ASC, stopped_at ASC`
(SQLite NULLs sort first). -/
def recRetryLe (a b : RecRow) : Bool :=
  let sk : Option Nat → Nat × Nat := fun | none => (0, 0) | some t => (1, t)
  decide ((a.upload_attempts, sk a.stopped_at) ≤ (b.upload_attempts, sk b.stopped_at))

/-- Sort key for `ORDER BY stopped_at ASC`. -/
def recStopLe (a b : RecRow) : Bool :=
  let sk : Option Nat → Nat × Nat := fun | none => (0, 0) | some t => (1, t)
  decide (sk a.stopped_at ≤ sk b.stopped_at)

/-- `MixMonitorTracker.get_completed_recordings`.  With `retryMinutes > 0`
the `WHERE` clause is `recording_complete = 1 AND (earliest_upload_time IS
NULL OR earliest_upload_time <= now) AND (uploaded = 0 OR (uploaded = 0 AND
upload_status != 202 AND (last_upload_attempt IS NULL OR last_upload_attempt
< now - retryMinutes)))`; with `retryMinutes = 0` only never-attempted rows
qualify. -/
def getCompletedRecordings (now : Nat) (retryMinutes : Nat) (s : RecStore) : List RecRow :=
  if retryMinutes > 0 then
    let retryCutoff := now - retryMinutes * 60
    insSort recRetryLe (s.filter fun r =>
      r.recording_complete ∧
      (r.earliest_upload_time.isNone ∨ r.earliest_upload_time.getD 0 ≤ now) ∧
      (¬r.uploaded ∨
        (¬r.uploaded ∧ r.upload_status ≠ 202 ∧
          (r.last_upload_attempt.isNone ∨ r.last_upload_attempt.getD 0 < retryCutoff))))
  else
    insSort recStopLe (s.filter fun r =>
      r.recording_complete ∧
      (r.earliest_upload_time.isNone ∨ r.earliest_upload_time.getD 0 ≤ now) ∧
      ¬r.uploaded ∧ r.upload_attempts = 0)

/-- `MixMonitorTracker.cleanup_old_entries` / the startup purge:
`DELETE FROM recording_metadata WHERE created_at < now - hours`. -/
def cleanupOldRecordings (now : Nat) (hours : Nat) (s : RecStore) : RecStore :=
  s.filter fun r => ¬(r.created_at < now - hours * 3600)

/-- The live mutations of the recording store, as invoked by
`handle_mixmonitor_start`/`handle_mixmonitor_stop`, the monitoring loop
(`_check_recording_files`) and the upload loop
(`check_and_upload_completed_recordings` of `ami/connector.py` and
`ami/connector_v2.py`).  The side conditions record the query filters and
in-loop guards under which each mutation is reached. -/
inductive RecStep : RecStore → RecStore → Prop
  | start (s : RecStore) (r : RecRow)
      (hdefaults : r.uploaded = false ∧ r.recording_complete = false ∧
        r.upload_status = 0 ∧ r.upload_attempts = 0 ∧ r.size_stable_count = 0) :
      RecStep s (insertOrReplaceRec r s)
  | stop (s : RecStore) (now : Nat) (fn : String) :
      RecStep s (markStopped now fn s)
  | check (s : RecStore) (r : RecRow) (fileThere : Bool) (size now : Nat)
      (hmem : r ∈ s)
      (hsel : r.file_exists = true ∧ r.recording_complete = false ∧
        r.uploaded = false ∧ r.file_path.isSome) :
      RecStep s (updRow r.filename (checkSingleRecording fileThere size now) s)
  | uploadOk (s : RecStore) (r : RecRow) (qnow rm now : Nat)
      (hsel : r ∈ getCompletedRecordings qnow rm s)
      (hnotup : r.uploaded = false) :
      RecStep s (markUploaded now r.filename s)
  | uploadFail (s : RecStore) (r : RecRow) (qnow rm now code : Nat) (msg : String)
      (hsel : r ∈ getCompletedRecordings qnow rm s)
      (hnotup : r.uploaded = false) :
      RecStep s (markUploadFailed now r.filename code msg s)
  | cleanup (s : RecStore) (now hours : Nat) :
      RecStep s (cleanupOldRecordings now hours s)

/-- States of the recording store reachable from an empty database. -/
def RecReachable (s : RecStore) : Prop :=
  Relation.ReflTransGen RecStep [] s

/-! ## CSV CEL source (`DatabaseConnector._get_cel_from_csv`) -/

/-- The closed set of event names of the CSV boundary regex. -/
def eventTypesCsv : List String :=
  ["CHAN_START", "CHAN_END", "HANGUP", "ANSWER", "BRIDGE_ENTER", "BRIDGE_EXIT",
   "APP_START", "APP_END", "LINKEDID_END", "PARK_START", "PARK_END",
   "CONF_ENTER", "CONF_EXIT", "USER_DEFINED"]

/-- Quoted-section body of a CSV field (`""` is an escaped quote); returns
the body and the remainder after the closing quote. -/
def csvQuoted : Nat → List Char → List Char × List Char
  | 0, l => ([], l)
  | _ + 1, [] => ([], [])
  | fuel + 1, '"' :: '"' :: rest =>
    let (q, r) := csvQuoted fuel rest
    ('"' :: q, r)
  | _ + 1, '"' :: rest => ([], rest)
  | fuel + 1, c :: rest =>
    let (q, r) := csvQuoted fuel rest
    (c :: q, r)

/-- One CSV field; the result flag is `0` after a delimiter, `1` after a
record terminator, `2` at end of input. -/
def csvFieldAux (delim : Char) : Nat → List Char → Bool → List Char × List Char × Nat
  | 0, l, _ => ([], l, 2)
  | _ + 1, [], _ => ([], [], 2)
  | fuel + 1, c :: rest, atStart =>
    if atStart ∧ c = '"' then
      let (q, rest') := csvQuoted fuel rest
      let (more, rest'', t) := csvFieldAux delim fuel rest' false
      (q ++ more, rest'', t)
    else if c = delim then ([], rest, 0)
    else if c = '\n' then ([], rest, 1)
    else if c = '\r' then
      match rest with
      | '\n' :: rest' => ([], rest', 1)
      | _ => ([], rest, 1)
    else
      let (f, r, t) := csvFieldAux delim fuel rest false
      (c :: f, r, t)

/-- The fields of one CSV record and the remaining input. -/
def csvRecordAux (delim : Char) : Nat → List Char → List (List Char) →
    List (List Char) × List Char
  | 0, l, acc => (acc.reverse, l)
  | fuel + 1, l, acc =>
    let (f, rest, t) := csvFieldAux delim (l.length + 1) l true
    match t with
    | 0 => csvRecordAux delim fuel rest (f :: acc)
    | _ => ((f :: acc).reverse, rest)

/-- All CSV records of the input; blank lines yield the empty record, which
`csv.DictReader` skips. -/
def csvRecords (delim : Char) : Nat → List Char → List (List (List Char))
  | 0, _ => []
  | _ + 1, [] => []
  | fuel + 1, '\n' :: rest => [] :: csvRecords delim fuel rest
  | fuel + 1, '\r' :: '\n' :: rest => [] :: csvRecords delim fuel rest
  | fuel + 1, l =>
    let (fs, rest) := csvRecordAux delim (l.length + 1) l []
    fs :: csvRecords delim fuel rest

/-- Field `i` of a record, the empty string when the record is short
(such a row can never match a linkedid, as in the Python `DictReader`). -/
def fieldStr (fs : List (List Char)) (i : Nat) : String := ⟨(fs.get? i).getD []⟩

/-- A CEL row from the fixed 19-column `cel_custom.conf` field list. -/
def mkCelFromFields (fs : List (List Char)) : Cel :=
  { eventtype := fieldStr fs 0, eventtime := fieldStr fs 1, cid_name := fieldStr fs 2,
    cid_num := fieldStr fs 3, cid_ani := fieldStr fs 4, cid_rdnis := fieldStr fs 5,
    cid_dnid := fieldStr fs 6, exten := fieldStr fs 7, context := fieldStr fs 8,
    channame := fieldStr fs 9, appname := fieldStr fs 10, appdata := fieldStr fs 11,
    amaflags := fieldStr fs 12, accountcode := fieldStr fs 13, uniqueid := fieldStr fs 14,
    linkedid := fieldStr fs 15, peer := fieldStr fs 16, userdeftype := fieldStr fs 17,
    extra := fieldStr fs 18 }

/-- The boundary regex `"(?:EVENTTYPE)","[^"]*"` matched at the head of the
input: the event name, a `","`, then a quote-free body up to a closing
quote.  Returns the matched text. -/
def matchEventAt (l : List Char) : Option (List Char) :=
  match l with
  | '"' :: rest =>
    match eventTypesCsv.find? (fun ev => lstarts rest (ev.data ++ "\",\"".data)) with
    | some ev =>
      let after := rest.drop (ev.data.length + 3)
      let body := after.takeWhile (· ≠ '"')
      match after.drop body.length with
      | '"' :: _ => some ('"' :: (ev.data ++ '"' :: ',' :: '"' :: (body ++ ['"'])))
      | _ => none
    | none => none
  | _ => none

/-- `re.findall` of the boundary pattern: leftmost non-overlapping matches. -/
def findAllEventsAux : Nat → List Char → List (List Char)
  | 0, _ => []
  | _ + 1, [] => []
  | fuel + 1, c :: rest =>
    match matchEventAt (c :: rest) with
    | some m => m :: findAllEventsAux fuel ((c :: rest).drop m.length)
    | none => findAllEventsAux fuel rest

/-- All boundary matches of the content. -/
def findAllEvents (cl : List Char) : List (List Char) :=
  findAllEventsAux (cl.length + 1) cl

/-- The scan for the next event opener `"EVENT",` at or after `start`
(`len(content)` when none is found). -/
def nextEventPos (cl : List Char) (start : Nat) : Nat :=
  (eventTypesCsv.filterMap fun ev =>
    lfindFrom cl ('"' :: (ev.data ++ ['"', ','])) start).foldr min cl.length

/-- Per-match processing of the main CSV branch: locate the match in the
content (first occurrence, as `content.find`), slice up to the next event
opener, strip trailing `\r\n,`, parse one CSV record, and keep it when its
16th field is the wanted linkedid. -/
def processMatches (cl : List Char) (linkedid : String) (ms : List (List Char)) : List Cel :=
  ms.filterMap fun m =>
    match lfindSub cl m with
    | none => none
    | some pos =>
      let nextPos := nextEventPos cl (pos + m.length)
      let eventLine := lrstripChars ((cl.take nextPos).drop pos) "\r\n,".data
      match (csvRecords ',' (eventLine.length + 1) eventLine).head? with
      | some fs =>
        if fs.get? 15 = some linkedid.data then some (mkCelFromFields fs) else none
      | none => none

/-- The fallback branch of `_get_cel_from_csv`: delimiter sniffing on the
first line, then a plain `DictReader` pass over the whole content with the
line cap. -/
def fallbackParse (cl : List Char) (maxLines : Nat) (linkedid : String) : List Cel :=
  let firstLine := if cl.contains '\n' then cl.takeWhile (· ≠ '\n') else cl.take 1000
  let cnt := fun (c : Char) => (firstLine.filter (· = c)).length
  let delim :=
    if cnt '|' > cnt ',' then '|' else if cnt '\t' > cnt ',' then '\t' else ','
  let rows := ((csvRecords delim (cl.length + 1) cl).filter fun r => ¬r.isEmpty).take maxLines
  (rows.filter fun fs => fs.get? 15 = some linkedid.data).map mkCelFromFields

/-- The parse phase of `_get_cel_from_csv` (the file content has already
been read). -/
def parseCelContent (content : String) (maxLines : Nat) (linkedid : String) : List Cel :=
  let cl := content.data
  let ms := findAllEvents cl
  if ms.isEmpty ∧ ¬cl.isEmpty then fallbackParse cl maxLines linkedid
  else processMatches cl linkedid (ms.take maxLines)

/-- The reader state of the CSV CEL source: the per-linkedid cache
(`cel_csv_cache`: events and insertion time) and the last file modification
time read (`cel_csv_last_read`, initially 0). -/
structure CsvState where
  cache : List (String × List Cel × Nat) := []
  lastRead : Nat := 0
  deriving Repr

/-- Python dict lookup on the cache. -/
def cacheLookup (c : List (String × List Cel × Nat)) (k : String) :
    Option (List Cel × Nat) :=
  (c.find? fun e => e.1 = k).map fun e => e.2

/-- Python dict assignment on the cache. -/
def cacheUpd (c : List (String × List Cel × Nat)) (k : String) (v : List Cel × Nat) :
    List (String × List Cel × Nat) :=
  if (c.find? fun e => e.1 = k).isSome then
    c.map fun e => if e.1 = k then (k, v) else e
  else c ++ [(k, v)]

/-- `DatabaseConnector._get_cel_from_csv` for an existing file: fresh cache
entries are served directly; when the file is unchanged since the last read
and the cache is nonempty the linkedid is answered with `[]` (and cached
so); otherwise the content is parsed, cached, and expired entries evicted.
`ttl` is `cel_csv_cache_ttl` (300 s), `maxLines` is `cel_csv_max_read_lines`. -/
def getCelFromCsv (ttl maxLines : Nat) (st : CsvState) (content : String)
    (mtime now : Nat) (linkedid : String) : List Cel × CsvState :=
  let fresh :=
    match cacheLookup st.cache linkedid with
    | some (evs, ts) => if now - ts < ttl then some evs else none
    | none => none
  match fresh with
  | some evs => (evs, st)
  | none =>
    if mtime = st.lastRead ∧ ¬st.cache.isEmpty then
      ([], { st with cache := cacheUpd st.cache linkedid ([], now) })
    else
      let events := parseCelContent content maxLines linkedid
      let cache1 := cacheUpd st.cache linkedid (events, now)
      let cache2 := cache1.filter fun e => ¬(now - e.2.2 > ttl)
      (events, { cache := cache2, lastRead := mtime })

/-! ## One poll (`CallProcessor.process_single_call`, CSV CEL mode) -/

/-- One `process_single_call` for a linkedid in CSV CEL mode, with the API
ship assumed to succeed: fetch CDRs (given) and CELs (through the CSV
reader), bail out without CDRs, evaluate completion, ask the shipping
decision, and on shipping build the document and record the tracker upsert
with `shipped=True`.  Returns the emitted document with its phase, the new
reader state, and the new tracker row. -/
def pollStepCsv (mode : String) (longInterval ttl maxLines now : Nat)
    (cdrs : List Cdr) (content : String) (mtime : Nat) (st : CsvState)
    (row? : Option CallRow) (cfg : Config) (linkedid : String) :
    Option (CallData × String) × CsvState × Option CallRow :=
  let (cels, st') := getCelFromCsv ttl maxLines st content mtime now linkedid
  if cdrs.isEmpty then (none, st', row?)
  else
    let ic := isCallComplete now cdrs cels
    let (ship, phase) := shouldShipCall mode longInterval now row? ic cdrs.length cels.length
    if ship then
      (some (formatCallData now linkedid cdrs cels ic cfg, phase), st',
        some (trackProcessedCall now row? linkedid ic cdrs.length cels.length true))
    else (none, st', row?)

/-! ## Claim formalizations and concrete inputs -/

/-- The completion condition exactly as claim C1 states it: LINKEDID_END,
or the HANGUP count *equals* the distinct CHAN_START channel count with at
least one CHAN_START, or every CDR disposed and no CDR updated in the last
60 seconds. -/
def claimCompleteC1 (now : Nat) (cdrs : List Cdr) (cels : List Cel) : Prop :=
  hasLinkedidEnd cels = true ∨
  (hangupCount cels = chanStartChannelCount cels ∧ chanStartChannelCount cels ≥ 1) ∨
  (allDisposed cdrs = true ∧ now - lastCdrUpdate cdrs > 60)

/-- The completion condition the code actually computes (`≥` instead of
`=`, and a nonempty CDR list required for the disposition branch). -/
def codeCompleteCond (now : Nat) (cdrs : List Cdr) (cels : List Cel) : Prop :=
  hasLinkedidEnd cels = true ∨
  (chanStartChannelCount cels > 0 ∧ hangupCount cels ≥ chanStartChannelCount cels) ∨
  (cdrs ≠ [] ∧ allDisposed cdrs = true ∧ now - lastCdrUpdate cdrs > 60)

/-- The spec's extension test (claim C5): leading `*` or 2–7 digits. -/
def extSpec (s : String) : Bool :=
  lstarts s.data ['*'] || (lisdigit s.data && decide (2 ≤ s.length) && decide (s.length ≤ 7))

/-- The spec's internal-contexts set (claim C5, no custom patterns). -/
def internalCtxSpec (s : String) : Bool :=
  ["from-internal", "from-inside", "from-phone", "from-extension", "from-local"].contains s

/-- The retry cooldown schedule exactly as claim C7 states it, in seconds:
5 m, 10 m, 20 m, 40 m after attempts 1–4, then 1 h. -/
def cooldownSpec (attempts : Nat) : Nat :=
  match attempts with
  | 0 => 0
  | 1 => 300
  | 2 => 600
  | 3 => 1200
  | 4 => 2400
  | _ => 3600

/-- A CEL row with every field blank, base for concrete test rows. -/
def blankCel : Cel :=
  { eventtype := "", eventtime := "", cid_name := "", cid_num := "", cid_ani := "",
    cid_rdnis := "", cid_dnid := "", exten := "", context := "", channame := "",
    appname := "", appdata := "", amaflags := "", accountcode := "", uniqueid := "",
    linkedid := "L1", peer := "", userdeftype := "", extra := "" }

/-- A CDR row with every field blank, base for concrete test rows. -/
def blankCdr : Cdr :=
  { calldate := 0, src := "", dst := "", context := "", dcontext := "", channel := "",
    dstchannel := "", disposition := "", duration := 0, billsec := 0, uniqueid := "",
    linkedid := "L1", accountcode := "", userfield := "", peeraccount := "", lastdata := "" }

/-- C1 counterexample: one CDR still NULL-disposed and updated right now. -/
def c1cdr : Cdr := { blankCdr with calldate := 1000, disposition := "NULL" }

/-- C1 counterexample: two HANGUPs against one CHAN_START channel. -/
def c1cels : List Cel :=
  [{ blankCel with eventtype := "HANGUP" },
   { blankCel with eventtype := "HANGUP" },
   { blankCel with eventtype := "CHAN_START", channame := "SIP/a" }]

/-- C2 amended witness: a row already shipped in complete phase. -/
def c2row : CallRow :=
  { linkedid := "L2", first_seen := 10, last_updated := 10, is_complete := true,
    shipped_at := some 10, ship_count := 1, last_cdr_count := 1, last_cel_count := 4 }

/-- C3 counterexample: the CEL CSV content, two events of linkedid `L1`. -/
def c3content : String :=
  "\"CHAN_START\",\"1\",\"\",\"\",\"\",\"\",\"\",\"\",\"\",\"SIP/a\",\"\",\"\",\"\",\"\",\"u1\",\"L1\",\"\",\"\",\"\"\n\"ANSWER\",\"2\",\"\",\"\",\"\",\"\",\"\",\"\",\"\",\"SIP/a\",\"\",\"\",\"\",\"\",\"u1\",\"L1\",\"\",\"\",\"\"\n"

/-- C3 counterexample: the first CDR of the call (not yet disposed). -/
def c3cdr1 : Cdr :=
  { blankCdr with
    calldate := 900, src := "4165551234", dst := "100",
    channel := "SIP/x-1", duration := 10, uniqueid := "u1" }

/-- C3 counterexample: the second CDR, arriving before the second poll. -/
def c3cdr2 : Cdr := { c3cdr1 with calldate := 1290, uniqueid := "u2", duration := 5 }

/-- C3 counterexample: first poll at t=1000, fresh reader state, file
mtime 100, progressive mode; ships `initial`. -/
def c3poll1 : Option (CallData × String) × CsvState × Option CallRow :=
  pollStepCsv "progressive" 600 300 50000 1000 [c3cdr1] c3content 100 {} none {} "L1"

/-- C3 counterexample: second poll 301 s later with one more CDR and the
file unchanged; the reader's cache entry has expired, so the unchanged-file
branch returns no CELs; ships `update`. -/
def c3poll2 : Option (CallData × String) × CsvState × Option CallRow :=
  pollStepCsv "progressive" 600 300 50000 1301 [c3cdr1, c3cdr2] c3content 100
    c3poll1.2.1 c3poll1.2.2 {} "L1"

/-- C4: the CDR of end-to-end scenario 1 of the spec. -/
def c4cdr : Cdr :=
  { blankCdr with
    calldate := 1000, src := "4165551234", dst := "100",
    context := "from-trunk", dcontext := "from-did-direct",
    channel := "SIP/sbc-ca2-telair-abc123", dstchannel := "PJSIP/100-telair-def456",
    disposition := "ANSWERED", duration := 42, billsec := 40, uniqueid := "u1" }

/-- C4: the CEL sequence of end-to-end scenario 1 of the spec. -/
def c4cels : List Cel :=
  [{ blankCel with eventtype := "CHAN_START", eventtime := "0000001000", exten := "4164775498" },
   { blankCel with eventtype := "ANSWER", eventtime := "0000001002" },
   { blankCel with eventtype := "HANGUP", eventtime := "0000001044" },
   { blankCel with eventtype := "LINKEDID_END", eventtime := "0000001044" }]

/-- C4: the consolidated document built from scenario 1 through the full
pipeline (completion test, direction, numbers, tenant). -/
def c4doc : CallData :=
  formatCallData 1100 "L1" [c4cdr] c4cels (isCallComplete 1100 [c4cdr] c4cels) {}

/-- C5 counterexample: internal dcontext, non-extension dst, but a trunk
source channel and an extension destination channel. -/
def c5cdr : Cdr :=
  { blankCdr with
    dcontext := "from-internal", dst := "9991234567",
    src := "100", channel := "SIP/sbc-ca2-foo-abc123", dstchannel := "SIP/100-bar-def456" }

/-- C5 amended witness: a CDR reaching the context-based fallback. -/
def c5fb : Cdr :=
  { blankCdr with
    dcontext := "from-internal", dst := "9991234567", src := "4165551234",
    channel := "weird", dstchannel := "" }

/-- C7 counterexample: a completed, thrice-failed descriptor whose last
attempt was only 60 s ago, created 1 000 000 s before `now`. -/
def c7row : RecRow :=
  { filename := "r.wav", recording_complete := true, uploaded := false,
    upload_status := 500, upload_attempts := 3, last_upload_attempt := some 999940,
    file_exists := true, file_path := some "/rec/r.wav", file_size := 2000,
    stopped_at := some 500, earliest_upload_time := some 505, created_at := 0 }

/-- C8 witness: the descriptor inserted by the recording-start event. -/
def w8r0 : RecRow :=
  { filename := "w.wav", file_exists := true, file_path := some "/rec/w.wav",
    file_size := 2000, created_at := 0 }

/-- C8 witness: after the first stable size sample. -/
def w8r1 : RecRow := { w8r0 with size_stable_count := 1, last_size_check := some 100 }

/-- C8 witness: after the second stable sample, marked complete. -/
def w8r2 : RecRow := { w8r1 with recording_complete := true, stopped_at := some 200 }

/-- C8 witness: after the successful upload. -/
def w8r3 : RecRow :=
  { w8r2 with uploaded := true, upload_status := 202, last_upload_attempt := some 300 }

/-- C8 witness store states along the trace. -/
def w8s1 : RecStore := insertOrReplaceRec w8r0 []

/-- C8 witness store after the first size check. -/
def w8s2 : RecStore := updRow "w.wav" (checkSingleRecording true 2000 100) w8s1

/-- C8 witness store after the second size check. -/
def w8s3 : RecStore := updRow "w.wav" (checkSingleRecording true 2000 200) w8s2

/-- C8 witness store after the upload. -/
def w8s4 : RecStore := markUploaded 300 "w.wav" w8s3

/-- Per-row part of the C8 invariant: an uploaded row is complete with
status 202 and a real file size, and a complete row has a real file size. -/
def RecRowOk (r : RecRow) : Prop :=
  (r.uploaded = true →
    r.recording_complete = true ∧ r.upload_status = 202 ∧ 1000 ≤ r.file_size) ∧
  (r.recording_complete = true → 1000 ≤ r.file_size)

/-- The C8 store invariant: every row is sound and filenames are unique
(the SQLite primary key). -/
def RecInv (s : RecStore) : Prop :=
  (∀ r ∈ s, RecRowOk r) ∧ s.Pairwise fun a b => a.filename ≠ b.filename

/-- C9 counterexample: a 25-hour-old row that was never shipped. -/
def c9row : CallRow :=
  { linkedid := "L9", first_seen := 10000, last_updated := 10000, is_complete := true,
    shipped_at := none, ship_count := 0 }

/-! ## Helper lemmas -/

theorem ordIns_perm (le : α → α → Bool) (a : α) (l : List α) :
    List.Perm (ordIns le a l) (a :: l) := by
  induction l with
  | nil => simp [ordIns]
  | cons b t ih =>
    unfold ordIns
    by_cases h : le a b
    · simp [h]
    · simp only [h, if_neg]
      exact (ih.cons b).trans (List.Perm.swap a b t)

theorem insSort_perm (le : α → α → Bool) (l : List α) :
    List.Perm (insSort le l) l := by
  induction l with
  | nil => exact List.Perm.refl _
  | cons a t ih => exact (ordIns_perm le a (insSort le t)).trans (ih.cons a)

theorem insSort_length (le : α → α → Bool) (l : List α) :
    (insSort le l).length = l.length :=
  (insSort_perm le l).length_eq

theorem mem_insSort (le : α → α → Bool) (l : List α) (x : α) :
    x ∈ insSort le l ↔ x ∈ l :=
  (insSort_perm le l).mem_iff

theorem foldr_max_le_of_sublist {l₁ l₂ : List Nat} (h : l₁.Sublist l₂) :
    l₁.foldr max 0 ≤ l₂.foldr max 0 := by
  induction h with
  | slnil => exact Nat.le_refl 0
  | cons a _ ih => exact ih.trans (Nat.le_max_right a _)
  | cons₂ a _ ih => exact max_le_max (Nat.le_refl a) ih

theorem normalizeNumberL_spec {x s : List Char} (h : normalizeNumberL x = some s) :
    (∀ c ∈ s, c.isDigit = true) ∧ 11 ≤ s.length := by
  unfold normalizeNumberL at h
  by_cases hx : x.isEmpty
  · rw [if_pos hx] at h; cases h
  · rw [if_neg hx] at h
    dsimp only at h
    set f := (stripDialPfx x).filter Char.isDigit with hf
    have hdig : ∀ c ∈ f, c.isDigit = true := fun c hc => List.of_mem_filter hc
    by_cases h10 : f.length = 10
    · rw [if_pos h10, if_pos (by simp [h10])] at h
      obtain rfl := Option.some_injective _ h
      refine ⟨fun c hc => ?_, by simp [h10]⟩
      rcases List.mem_cons.mp hc with rfl | hc
      · decide
      · exact hdig c hc
    · rw [if_neg h10] at h
      by_cases hge : f.length ≥ 10
      · rw [if_pos hge] at h
        obtain rfl := Option.some_injective _ h
        exact ⟨hdig, by omega⟩
      · rw [if_neg hge] at h; cases h

/-! ## Claim C6 — idempotence of number normalization -/

/-- C6 counterexample: for `x = "998765432109"` the document-producing
normalization `_normalize_number` is not idempotent — the first pass leaves
a leading `9`, which the second pass strips again as a dial prefix. -/
theorem C6_counterexample :
    normalizeNumber "998765432109" = some "98765432109" ∧
    (normalizeNumber "998765432109").bind normalizeNumber = some "18765432109" ∧
    (normalizeNumber "998765432109").bind normalizeNumber ≠
      normalizeNumber "998765432109" :=
  ⟨rfl, rfl, by decide⟩

/-- C6 (amended): `_normalize_number` is idempotent on every input whose
normalized output does not begin with the digit `9`; outputs are all-digit
strings of length at least 11, so only the leading-`9` dial-prefix strip
can change a second application. -/
theorem C6_amended_idempotent (x s : List Char) (h : normalizeNumberL x = some s)
    (h9 : s.head? ≠ some '9') : normalizeNumberL s = some s := by
  obtain ⟨hdig, hlen⟩ := normalizeNumberL_spec h
  obtain ⟨c, t, rfl⟩ : ∃ c t, s = c :: t := by
    cases s with
    | nil => simp at hlen
    | cons c t => exact ⟨c, t, rfl⟩
  have hc : c.isDigit = true := hdig c (List.mem_cons_self c t)
  have hcstar : c ≠ '*' := by
    intro hcs; rw [hcs] at hc; cases hc
  have hc9 : c ≠ '9' := by
    intro hc9; rw [hc9] at h9; exact h9 rfl
  have h67 : lstarts (c :: t) ['*', '6', '7'] = false := by
    unfold lstarts
    rw [List.isPrefixOf]
    rw [show ('*' == c) = false from beq_eq_false_iff_ne.mpr fun h => hcstar h.symm]
    rw [Bool.false_and]
  have h82 : lstarts (c :: t) ['*', '8', '2'] = false := by
    unfold lstarts
    rw [List.isPrefixOf]
    rw [show ('*' == c) = false from beq_eq_false_iff_ne.mpr fun h => hcstar h.symm]
    rw [Bool.false_and]
  have h9p : lstarts (c :: t) ['9'] = false := by
    unfold lstarts
    rw [List.isPrefixOf]
    rw [show ('9' == c) = false from beq_eq_false_iff_ne.mpr fun h => hc9 h.symm]
    rw [Bool.false_and]
  have hstrip : stripDialPfx (c :: t) = c :: t := by
    simp [stripDialPfx, h67, h82, h9p]
  have hfil : (c :: t).filter Char.isDigit = c :: t :=
    List.filter_eq_self.mpr hdig
  have hne10 : ¬((c :: t).length = 10) := by omega
  have hge10 : (c :: t).length ≥ 10 := by omega
  unfold normalizeNumberL
  rw [if_neg (by simp)]
  dsimp only
  rw [hstrip, hfil, if_neg hne10, if_pos hge10]

/-- C6 witness: the amended idempotence at the concrete number
`4165551234`, normalized to `14165551234`. -/
theorem C6_amended_idempotent_witness :
    normalizeNumberL "4165551234".data = some "14165551234".data ∧
    "14165551234".data.head? ≠ some '9' ∧
    normalizeNumberL "14165551234".data = some "14165551234".data :=
  ⟨by decide, by decide,
    C6_amended_idempotent "4165551234".data "14165551234".data (by decide) (by decide)⟩

/-! ## Claim C9 — startup cleanup of the per-call shipping state -/

/-- C9 counterexample: a row 25 hours old with `shipped_at` unset is purged
by the startup cleanup, although the claim says rows without `shipped_at`
and rows younger than 48 hours are kept. -/
theorem C9_counterexample :
    initTrackerCleanup 100000 [c9row] = [] ∧ c9row.shipped_at = none ∧
    100000 - c9row.last_updated < 48 * 3600 := by decide

/-- C9 (amended): the startup cleanup purges exactly the rows whose
`last_updated` is older than 24 hours, regardless of `shipped_at`. -/
theorem C9_amended_cleanup (now : Nat) (rows : List CallRow) (r : CallRow) :
    r ∈ initTrackerCleanup now rows ↔
      r ∈ rows ∧ ¬(r.last_updated < now - 24 * 3600) := by
  unfold initTrackerCleanup
  simp [List.mem_filter]

/-! ## Claim C2 — no re-shipping after a complete-phase ship -/

/-- C2 counterexample: a call shipped in `complete` phase at t=10 is
re-shipped after a restart at t=100000 (about 28 h later): the startup
cleanup purges its 24-hour-old row, and with no row the decision for a
complete call is `(true, "complete")` again. -/
theorem C2_counterexample :
    shouldShipCall "complete" 600 10 none true 1 4 = (true, "complete") ∧
    initTrackerCleanup 100000 [trackProcessedCall 10 none "L2" true 1 4 true] = [] ∧
    shouldShipCall "complete" 600 100001 none true 1 4 = (true, "complete") := by
  decide

/-- C2 (amended): while the tracker row survives, a linkedid recorded
complete and shipped at least once is never shipped again in `complete`
mode; re-shipping requires the 24-hour startup purge of the row (see the
counterexample). -/
theorem C2_amended_no_reship (longInterval now cdrCount celCount : Nat) (row : CallRow)
    (hc : row.is_complete = true) (hs : 0 < row.ship_count) :
    shouldShipCall "complete" longInterval now (some row) true cdrCount celCount =
      (false, "none") := by
  unfold shouldShipCall
  simp [hc, hs]

/-- C2 witness: the amended no-reship property at a concrete shipped row. -/
theorem C2_amended_no_reship_witness :
    c2row.is_complete = true ∧ 0 < c2row.ship_count ∧
    shouldShipCall "complete" 600 50 (some c2row) true 2 3 = (false, "none") :=
  ⟨rfl, by decide, C2_amended_no_reship 600 50 2 3 c2row rfl (by decide)⟩

/-! ## Claim C4 — end-to-end scenario 1 -/

/-- C4 counterexample: on the literal inputs of spec scenario 1 the
consolidated document does not satisfy the claimed output, because the
extracted tenant is `"from-did-direct"` (the whole dcontext passes
`_is_valid_tenant`), not `"telair"`. -/
theorem C4_counterexample :
    ¬(c4doc.direction = "i" ∧ c4doc.src_number = some "14165551234" ∧
      c4doc.dst_number = some "14164775498" ∧ c4doc.dst_extension = some "100" ∧
      c4doc.tenant = "telair" ∧ c4doc.is_complete = true) := by
  intro hcl
  exact absurd hcl.2.2.2.2.1 (by decide)

/-- C4 (amended): scenario 1 produces `direction="i"`,
`src_number="14165551234"`, `dst_number="14164775498"`,
`dst_extension="100"`, `is_complete=true` — and `tenant="from-did-direct"`. -/
theorem C4_amended_scenario1 :
    c4doc.direction = "i" ∧ c4doc.src_number = some "14165551234" ∧
    c4doc.dst_number = some "14164775498" ∧ c4doc.dst_extension = some "100" ∧
    c4doc.tenant = "from-did-direct" ∧ c4doc.is_complete = true :=
  ⟨rfl, rfl, rfl, rfl, rfl, rfl⟩

/-! ## Claim C10 — group disposition -/

/-- C10: for a nonempty CDR list in calldate order, the document's
disposition is `ANSWERED` when some CDR is `ANSWERED`, and otherwise the
first CDR's disposition. -/
theorem C10_group_disposition (now : Nat) (lid : String) (c : Cdr) (rest : List Cdr)
    (cels : List Cel) (ic : Bool) (cfg : Config)
    (_hord : List.Chain' (fun a b => a.calldate ≤ b.calldate) (c :: rest)) :
    (formatCallData now lid (c :: rest) cels ic cfg).disposition =
      if "ANSWERED" ∈ (c :: rest).map (·.disposition) then "ANSWERED"
      else c.disposition := by
  show (if ((c :: rest).map (·.disposition)).contains "ANSWERED" then "ANSWERED"
      else ((c :: rest).map (·.disposition)).headD "NO ANSWER") = _
  by_cases h : "ANSWERED" ∈ (c :: rest).map (·.disposition)
  · rw [if_pos, if_pos h]
    exact List.elem_eq_true_of_mem h
  · rw [if_neg, if_neg h]
    · rfl
    · intro hcont
      exact h (List.mem_of_elem_eq_true hcont)

/-- C10 witness: the disposition equation at a concrete two-CDR group. -/
theorem C10_group_disposition_witness :
    List.Chain' (fun a b : Cdr => a.calldate ≤ b.calldate) [c3cdr1, c3cdr2] ∧
    (formatCallData 0 "L1" [c3cdr1, c3cdr2] [] true {}).disposition =
      (if "ANSWERED" ∈ [c3cdr1, c3cdr2].map (·.disposition) then "ANSWERED"
       else c3cdr1.disposition) :=
  ⟨by rw [List.chain'_cons]; exact ⟨by decide, by simp⟩,
    C10_group_disposition 0 "L1" c3cdr1 [c3cdr2] [] true {}
      (by rw [List.chain'_cons]; exact ⟨by decide, by simp⟩)⟩

/-! ## Claim C1 — the completion test -/

/-- C1 counterexample: two HANGUP CELs against one CHAN_START channel make
the code's test true (`hangup_count >= channel_count`), while the claim's
equality-based condition is false and its disposition branch fails too. -/
theorem C1_counterexample :
    isCallComplete 1000 [c1cdr] c1cels = true ∧
    ¬claimCompleteC1 1000 [c1cdr] c1cels := by
  constructor
  · decide
  · unfold claimCompleteC1
    decide

/-- C1 (amended): the completion test returns true iff a LINKEDID_END CEL
exists, or the HANGUP count is at least (not equal to) the distinct
CHAN_START channel count with at least one CHAN_START, or the CDR list is
nonempty with every disposition non-null and more than 60 seconds since the
last CDR update. -/
theorem C1_amended_completion (now : Nat) (cdrs : List Cdr) (cels : List Cel) :
    isCallComplete now cdrs cels = true ↔ codeCompleteCond now cdrs cels := by
  unfold isCallComplete codeCompleteCond
  have hcdr :
      (if cdrs.isEmpty then false
       else if ¬allDisposed cdrs then false
       else decide (now - lastCdrUpdate cdrs > 60)) = true ↔
      (cdrs ≠ [] ∧ allDisposed cdrs = true ∧ now - lastCdrUpdate cdrs > 60) := by
    by_cases h1 : cdrs.isEmpty
    · rw [if_pos h1]
      simp [List.isEmpty_iff.mp h1]
    · rw [if_neg h1]
      have hne : cdrs ≠ [] := by
        intro h; rw [h] at h1; exact h1 rfl
      by_cases h2 : allDisposed cdrs
      · rw [if_neg (by simp [h2])]
        simp [hne, h2]
      · rw [if_pos (by simp [h2])]
        simp [h2]
  by_cases h0 : cels.isEmpty
  · have h0' : cels = [] := List.isEmpty_iff.mp h0
    subst h0'
    simp only [hasLinkedidEnd, chanStartChannelCount, hangupCount, List.any_nil,
      List.filter_nil, List.length_nil, List.map_nil, List.dedup_nil, List.isEmpty_nil,
      Bool.not_true, Bool.false_eq_true, if_false, gt_iff_lt, Nat.lt_irrefl, false_and,
      and_false, false_or] at hcdr ⊢
    exact hcdr
  · by_cases hle : hasLinkedidEnd cels
    · simp [h0, hle]
    · by_cases hb : hangupCount cels ≥ chanStartChannelCount cels ∧
          chanStartChannelCount cels > 0
      · simp [h0, hle, hb]
      · have : (if ¬cels.isEmpty = true then
            if hasLinkedidEnd cels = true then some true
            else if hangupCount cels ≥ chanStartChannelCount cels ∧
                chanStartChannelCount cels > 0 then some true
            else none
          else none) = none := by
          simp [h0, hle, hb]
        rw [this]
        rw [hcdr]
        constructor
        · exact fun h => Or.inr (Or.inr h)
        · rintro (h | h | h)
          · exact absurd h (by simpa using hle)
          · exact absurd ⟨h.2, h.1⟩ hb
          · exact h

/-! ## Claim C5 — direction classifier priority -/

/-- C5 counterexample: a CDR whose dcontext is exactly `from-internal` and
whose dst is a 10-digit external number is classified `"i"`, not the
claimed `"o"`, because the trunk-source/extension-destination channel rule
fires first. -/
theorem C5_counterexample :
    internalCtxSpec c5cdr.dcontext = true ∧ extSpec c5cdr.dst = false ∧
    determineDirection [c5cdr] [] = "i" ∧ ("i" : String) ≠ "o" :=
  ⟨by decide, by decide, by decide, by decide⟩

/-- C5 (amended): channel trunk/extension rules and bare number-length
rules take precedence; only when none of them fires does an internal
destination context decide, and then the result is `"o"` for a 10+-digit
dst and the default `"x"` otherwise (the spec's extension test is never
consulted). -/
theorem C5_amended_fallback (cdr : Cdr) (rest : List Cdr) (cels : List Cel)
    (h1 : ¬(isTrunkChan cdr.channel = true ∧ isExtensionChannel cdr.dstchannel = true))
    (h2 : ¬(isExtensionChannel cdr.channel = true ∧ isTrunkChan cdr.dstchannel = true))
    (h3 : ¬(isExtensionChannel cdr.channel = true ∧
      isExtensionChannel cdr.dstchannel = true))
    (h4 : ¬(isExternalNum cdr.src = true ∧ ¬isExternalNum cdr.dst = true))
    (h5 : ¬(¬isExternalNum cdr.src = true ∧ isExternalNum cdr.dst = true))
    (h6 : ¬(["from-trunk", "from-pstn", "from-external", "from-did"].any
        (fun p => lcontains
          (ltoLower (if cdr.dcontext ≠ "" then cdr.dcontext else cdr.context).data)
          p.data) = true))
    (h7 : ["from-internal", "from-inside"].any
        (fun p => lcontains
          (ltoLower (if cdr.dcontext ≠ "" then cdr.dcontext else cdr.context).data)
          p.data) = true) :
    determineDirection (cdr :: rest) cels =
      if isExternalNum cdr.dst then "o" else "x" := by
  show (if isTrunkChan cdr.channel = true ∧ isExtensionChannel cdr.dstchannel = true
      then "i" else _) = _
  rw [if_neg h1, if_neg h2, if_neg h3, if_neg h4, if_neg h5, if_neg h6]
  by_cases hd : isExternalNum cdr.dst = true
  · rw [if_pos ⟨h7, hd⟩, if_pos hd]
  · rw [if_neg (fun hc => hd hc.2), if_neg hd]

/-- C5 witness: the amended fallback at a CDR that reaches the
context-based branch with an internal dcontext and an external dst. -/
theorem C5_amended_fallback_witness :
    determineDirection [c5fb] [] = (if isExternalNum c5fb.dst then "o" else "x") :=
  C5_amended_fallback c5fb [] [] (by decide) (by decide) (by decide) (by decide)
    (by decide) (by decide) (by decide)

/-! ## Claim C7 — recording upload retry policy -/

/-- C7 counterexample: a completed descriptor with three failed attempts
whose last attempt was 60 seconds ago is already eligible again (the
`uploaded = 0` disjunct subsumes the cooldown clause), although the claim's
schedule demands a 20-minute cooldown; moreover it is still eligible
1 000 000 s (≈ 11.6 days) after it was first seen, past the claimed
48-hour ceiling. -/
theorem C7_counterexample :
    c7row ∈ getCompletedRecordings 1000000 5 [c7row] ∧
    c7row.last_upload_attempt = some 999940 ∧ 0 < c7row.upload_attempts ∧
    1000000 < 999940 + cooldownSpec c7row.upload_attempts ∧
    c7row.created_at + 48 * 3600 < 1000000 := by decide

/-- C7 (amended): with retries enabled, a descriptor is eligible for an
upload attempt iff it is tracked, complete, past `earliest_upload_time`,
and not yet uploaded — there is no per-attempt cooldown (the retry-cutoff
clause of the query is subsumed by its `uploaded = 0` disjunct) and no
48-hour abandonment in the eligibility query. -/
theorem C7_amended_eligibility (now rm : Nat) (s : List RecRow) (r : RecRow)
    (hrm : 0 < rm) :
    r ∈ getCompletedRecordings now rm s ↔
      r ∈ s ∧ r.recording_complete = true ∧
        (r.earliest_upload_time.isNone = true ∨ r.earliest_upload_time.getD 0 ≤ now) ∧
        r.uploaded = false := by
  unfold getCompletedRecordings
  rw [if_pos hrm, mem_insSort, List.mem_filter]
  simp only [decide_eq_true_eq, Bool.not_eq_true]
  constructor
  · rintro ⟨hs, hc, he, hu | ⟨hu, _⟩⟩ <;> exact ⟨hs, hc, he, hu⟩
  · rintro ⟨hs, hc, he, hu⟩
    exact ⟨hs, hc, he, Or.inl hu⟩

/-- C7 witness: the amended eligibility at the concrete descriptor. -/
theorem C7_amended_eligibility_witness :
    (0 : Nat) < 5 ∧
    (c7row ∈ getCompletedRecordings 1000000 5 [c7row] ↔
      c7row ∈ [c7row] ∧ c7row.recording_complete = true ∧
        (c7row.earliest_upload_time.isNone = true ∨
          c7row.earliest_upload_time.getD 0 ≤ 1000000) ∧
        c7row.uploaded = false) :=
  ⟨by decide, C7_amended_eligibility 1000000 5 [c7row] c7row (by decide)⟩

/-! ## Claim C3 — monotonicity of consecutive emissions -/

/-- C3 counterexample: two consecutive emissions of linkedid `L1` in
progressive mode.  The first poll parses the CEL CSV (2 events) and ships
`initial` with `call_threads_count = 3`; 301 s later the cache entry has
expired and the file is unchanged, so the reader returns no CELs, and the
second poll (triggered by a new CDR) ships `update` with
`call_threads_count = 2 < 3`. -/
theorem C3_counterexample :
    c3poll1.1.map (fun p => (p.2, p.1.call_threads_count)) = some ("initial", 3) ∧
    c3poll2.1.map (fun p => (p.2, p.1.call_threads_count)) = some ("update", 2) ∧
    ¬((2 : Nat) ≥ 3) :=
  ⟨rfl, rfl, by decide⟩

/-- C3 (amended): the document counters are monotone whenever the later
build's inputs contain the earlier build's rows — `call_threads_count` and
`duration_seconds` never decrease when the CDR and CEL lists only grow; the
CSV cache path can instead shrink the CEL list (see the counterexample). -/
theorem C3_amended_monotone (now₁ now₂ : Nat) (lid : String) (cdrs₁ cdrs₂ : List Cdr)
    (cels₁ cels₂ : List Cel) (ic₁ ic₂ : Bool) (cfg : Config)
    (hc : cdrs₁.Sublist cdrs₂) (he : cels₁.Sublist cels₂) :
    (formatCallData now₁ lid cdrs₁ cels₁ ic₁ cfg).call_threads_count ≤
      (formatCallData now₂ lid cdrs₂ cels₂ ic₂ cfg).call_threads_count ∧
    (formatCallData now₁ lid cdrs₁ cels₁ ic₁ cfg).duration_seconds ≤
      (formatCallData now₂ lid cdrs₂ cels₂ ic₂ cfg).duration_seconds := by
  constructor
  · show (buildCallThreads cdrs₁ cels₁).length ≤ (buildCallThreads cdrs₂ cels₂).length
    have hlen : ∀ (cdrs : List Cdr) (cels : List Cel),
        (buildCallThreads cdrs cels).length =
          cdrs.length +
            (cels.filter fun cel => significantEvents.contains cel.eventtype).length := by
      intro cdrs cels
      unfold buildCallThreads
      rw [insSort_length, List.length_append, List.length_map, List.length_map]
    rw [hlen, hlen]
    exact Nat.add_le_add hc.length_le ((he.filter _).length_le)
  · show ((cdrs₁.map (·.duration)).foldr max 0) ≤ ((cdrs₂.map (·.duration)).foldr max 0)
    exact foldr_max_le_of_sublist (hc.map _)

/-- C3 witness: the amended monotonicity at a concrete growing CDR list. -/
theorem C3_amended_monotone_witness :
    (formatCallData 1000 "L1" [c3cdr1] [] false {}).call_threads_count ≤
      (formatCallData 1301 "L1" [c3cdr1, c3cdr2] [] false {}).call_threads_count ∧
    (formatCallData 1000 "L1" [c3cdr1] [] false {}).duration_seconds ≤
      (formatCallData 1301 "L1" [c3cdr1, c3cdr2] [] false {}).duration_seconds :=
  C3_amended_monotone 1000 1301 "L1" [c3cdr1] [c3cdr1, c3cdr2] [] [] false false {}
    (List.Sublist.cons₂ c3cdr1 (List.nil_sublist [c3cdr2])) (List.Sublist.refl [])

/-! ## Claim C8 — uploaded recordings are complete, accepted, and real -/

theorem uniq_filename_eq {s : RecStore}
    (hp : s.Pairwise fun a b => a.filename ≠ b.filename)
    {p r : RecRow} (hps : p ∈ s) (hrs : r ∈ s) (h : p.filename = r.filename) :
    p = r := by
  induction s with
  | nil => cases hps
  | cons a t ih =>
    obtain ⟨hhead, htail⟩ := List.pairwise_cons.mp hp
    rcases List.mem_cons.mp hps with rfl | hps'
    · rcases List.mem_cons.mp hrs with rfl | hrs'
      · rfl
      · exact absurd h (hhead r hrs')
    · rcases List.mem_cons.mp hrs with rfl | hrs'
      · exact absurd h.symm (hhead p hps')
      · exact ih htail hps' hrs'

theorem mem_getCompleted {now rm : Nat} {s : RecStore} {r : RecRow}
    (h : r ∈ getCompletedRecordings now rm s) :
    r ∈ s ∧ r.recording_complete = true ∧ r.uploaded = false := by
  unfold getCompletedRecordings at h
  by_cases hrm : 0 < rm
  · rw [if_pos hrm, mem_insSort, List.mem_filter] at h
    obtain ⟨hs, hcond⟩ := h
    simp only [decide_eq_true_eq, Bool.not_eq_true] at hcond
    obtain ⟨hc, _, hu⟩ := hcond
    rcases hu with hu | ⟨hu, _⟩ <;> exact ⟨hs, hc, hu⟩
  · rw [if_neg hrm, mem_insSort, List.mem_filter] at h
    obtain ⟨hs, hcond⟩ := h
    simp only [decide_eq_true_eq, Bool.not_eq_true] at hcond
    exact ⟨hs, hcond.1, hcond.2.2.1⟩

theorem recInv_updRow {s : RecStore} (hinv : RecInv s) (fn : String)
    (f : RecRow → RecRow) (hfn : ∀ p, (f p).filename = p.filename)
    (hkeep : ∀ p ∈ s, p.filename = fn → RecRowOk p → RecRowOk (f p)) :
    RecInv (updRow fn f s) := by
  obtain ⟨hok, huniq⟩ := hinv
  constructor
  · intro q hq
    unfold updRow at hq
    obtain ⟨p, hp, hpq⟩ := List.mem_map.mp hq
    by_cases h : p.filename = fn
    · rw [if_pos h] at hpq
      exact hpq ▸ hkeep p hp h (hok p hp)
    · rw [if_neg h] at hpq
      exact hpq ▸ hok p hp
  · unfold updRow
    rw [List.pairwise_map]
    refine huniq.imp ?_
    intro a b hab
    have ha : (if a.filename = fn then f a else a).filename = a.filename := by
      split
      · exact hfn a
      · rfl
    have hb : (if b.filename = fn then f b else b).filename = b.filename := by
      split
      · exact hfn b
      · rfl
    rw [ha, hb]
    exact hab

theorem recStep_inv {s t : RecStore} (hstep : RecStep s t) (hinv : RecInv s) :
    RecInv t := by
  obtain ⟨hok, huniq⟩ := hinv
  cases hstep with
  | start r hdef =>
    obtain ⟨h1, h2, _, _, _⟩ := hdef
    constructor
    · intro q hq
      rcases List.mem_cons.mp hq with rfl | hq'
      · exact ⟨fun hu => absurd hu (by simp [h1]), fun hcpl => absurd hcpl (by simp [h2])⟩
      · exact hok q (List.mem_of_mem_filter hq')
    · refine List.pairwise_cons.mpr ⟨?_, huniq.sublist (List.filter_sublist _)⟩
      intro b hb heq
      have hbne := List.of_mem_filter hb
      simp only [decide_eq_true_eq] at hbne
      exact hbne heq.symm
  | stop now fn =>
    refine recInv_updRow ⟨hok, huniq⟩ fn _ (fun p => rfl) ?_
    intro p _ _ hpok
    exact hpok
  | check r fileThere size now hmem hsel =>
    refine recInv_updRow ⟨hok, huniq⟩ r.filename _ ?_ ?_
    · intro p
      unfold checkSingleRecording
      split_ifs <;> rfl
    · intro p hp hpfn hpok
      have hpr : p = r := uniq_filename_eq huniq hp hmem hpfn
      subst hpr
      obtain ⟨_, hncpl, hnup, _⟩ := hsel
      unfold checkSingleRecording
      split_ifs with g1 g2 g3 g4 <;>
        refine ⟨fun hu => absurd hu (by simp [hnup]), fun hcpl => ?_⟩ <;>
        dsimp only at hcpl ⊢ <;>
        first
          | (rw [hncpl] at hcpl; cases hcpl)
          | omega
  | uploadOk r qnow rm now hsel hnotup =>
    obtain ⟨hrs, hcpl, _⟩ := mem_getCompleted hsel
    refine recInv_updRow ⟨hok, huniq⟩ r.filename _ (fun p => rfl) ?_
    intro p hp hpfn hpok
    have hpr : p = r := uniq_filename_eq huniq hp hrs hpfn
    subst hpr
    refine ⟨fun _ => ⟨by simp [hcpl], rfl, ?_⟩, fun _ => ?_⟩
    · exact hpok.2 hcpl
    · exact hpok.2 hcpl
  | uploadFail r qnow rm now code msg hsel hnotup =>
    obtain ⟨hrs, _, _⟩ := mem_getCompleted hsel
    refine recInv_updRow ⟨hok, huniq⟩ r.filename _ (fun p => rfl) ?_
    intro p hp hpfn hpok
    have hpr : p = r := uniq_filename_eq huniq hp hrs hpfn
    subst hpr
    exact ⟨fun hu => absurd hu (by simp [hnotup]), fun hcpl => hpok.2 hcpl⟩
  | cleanup now hours =>
    exact ⟨fun q hq => hok q (List.mem_of_mem_filter hq),
      huniq.sublist (List.filter_sublist _)⟩

theorem recInv_of_reach {s : RecStore} (h : RecReachable s) : RecInv s := by
  induction h with
  | refl => exact ⟨fun r hr => absurd hr (List.not_mem_nil r), List.Pairwise.nil⟩
  | tail _ hstep ih => exact recStep_inv hstep ih

/-- C8: in every reachable state of the recording tracking store, a row
with `uploaded = 1` also has `recording_complete = 1`, `upload_status =
202`, and `file_size ≥ 1000` (uploads are attempted only on descriptors
from `get_completed_recordings`, and completion requires a stable size of
at least 1000 bytes). -/
theorem C8_uploaded_invariant (s : RecStore) (hs : RecReachable s) (r : RecRow)
    (hr : r ∈ s) (hu : r.uploaded = true) :
    r.recording_complete = true ∧ r.upload_status = 202 ∧ 1000 ≤ r.file_size :=
  ((recInv_of_reach hs).1 r hr).1 hu

/-- C8 witness: a concrete four-step trace — recording start, two stable
size checks reaching completion, successful upload — after which the
invariant is read off the uploaded row. -/
theorem C8_uploaded_invariant_witness :
    RecReachable w8s4 ∧ w8r3 ∈ w8s4 ∧ w8r3.uploaded = true ∧
    (w8r3.recording_complete = true ∧ w8r3.upload_status = 202 ∧
      1000 ≤ w8r3.file_size) := by
  have h1 : RecStep [] w8s1 := RecStep.start [] w8r0 (by decide)
  have h2 : RecStep w8s1 w8s2 :=
    RecStep.check w8s1 w8r0 true 2000 100 (by decide) (by decide)
  have h3 : RecStep w8s2 w8s3 :=
    RecStep.check w8s2 w8r1 true 2000 200 (by decide) (by decide)
  have h4 : RecStep w8s3 w8s4 :=
    RecStep.uploadOk w8s3 w8r2 300 5 300 (by decide) (by decide)
  have hreach : RecReachable w8s4 :=
    Relation.ReflTransGen.tail
      (Relation.ReflTransGen.tail
        (Relation.ReflTransGen.tail
          (Relation.ReflTransGen.tail Relation.ReflTransGen.refl h1) h2) h3) h4
  exact ⟨hreach, by decide, by decide,
    C8_uploaded_invariant w8s4 hreach w8r3 (by decide) (by decide)⟩

end Sipstack
